/-
  Verification development for the Predictipulse engine
  (src/predictipulse_engine.py).

  Python floats are modelled as rationals (ℚ); Python's `round(x, n)` is
  modelled by rounding `10^n * x` to the nearest integer.  Division by
  zero follows Lean's total-division convention (`x / 0 = 0`); wherever a
  theorem depends on a division, its hypotheses keep the denominator away
  from zero, matching the ranges the source actually produces.
-/
import Mathlib

namespace Predictipulse

/-- Model of Python's `round(x, 2)` on rationals. -/
def round2 (x : ℚ) : ℚ := (round (100 * x) : ℤ) / 100

/-- Model of Python's `round(x, 3)` on rationals. -/
def round3 (x : ℚ) : ℚ := (round (1000 * x) : ℤ) / 1000

/-- A rational that is a whole number of cents (two decimal places). -/
def isCents (x : ℚ) : Prop := ∃ n : ℤ, x = (n : ℚ) / 100

/-- Engine configuration: the keys `PredictipulseEngine` reads, with the
use-site defaults from `predictipulse_engine.py` (also the values of
`DEFAULT_CONFIG` in `config_manager.py`). -/
structure Config where
  kelly_multiplier : ℚ := 1/2
  max_dollar_bet : ℚ := 50
  max_percentage_bet : ℚ := 10
  min_true_prob : ℚ := 3/20
  max_true_prob : ℚ := 17/20
  target_buy_ev : ℚ := 1/20
deriving Repr, DecidableEq

/-- Kelly fraction, embedded from `predictipulse_engine.py` lines 250-254
(the identical formula recurs at lines 605-609):
`max(0, ((true_prob * (1/market_prob - 1)) - (1 - true_prob)) / (1/market_prob - 1))`. -/
def kelly_fraction (true_prob market_prob : ℚ) : ℚ :=
  max 0 (((true_prob * (1 / market_prob - 1)) - (1 - true_prob)) / (1 / market_prob - 1))

/-- Stake before the final `max(0, ·)`, embedded from lines 255-257 (and
610-612): bankroll × kelly fraction × multiplier, clamped by the absolute
dollar cap and then by the percentage-of-bankroll cap. -/
def clamped_stake (cfg : Config) (bankroll true_prob market_prob : ℚ) : ℚ :=
  min (min (bankroll * kelly_fraction true_prob market_prob * cfg.kelly_multiplier)
        cfg.max_dollar_bet)
    (bankroll * cfg.max_percentage_bet / 100)

/-- The stake the simulation cycle publishes in its opportunity record,
line 268: `"kelly_stake": max(0.0, stake)`. -/
def sim_kelly_stake (cfg : Config) (bankroll true_prob market_prob : ℚ) : ℚ :=
  max 0 (clamped_stake cfg bankroll true_prob market_prob)

/-- A Kalshi market row as assembled by `_fetch_kalshi_sports_markets`
(lines 537-548). -/
structure MarketItem where
  ticker : String
  title : String
  subtitle : String
  yes_price : ℚ
  no_price : ℚ
  volume : ℚ
  category : String
deriving Repr, DecidableEq

/-- An opportunity record as published to the opportunity queue, covering
both the simulation cycle's dict (lines 261-270) and the live scanner's
dict (lines 589-615).  Fields only one of the two producers fills carry
an `Option`/default in the other. -/
structure Opportunity where
  matchup : String
  team : String
  sport : String
  true_prob : ℚ
  market_prob : ℚ
  edge : ℚ
  kelly_stake : ℚ
  kalshi_ticker : Option String := none
  kalshi_yes_price : ℚ := 0
  volume : ℚ := 0
  timestamp : ℚ := 0
deriving Repr, DecidableEq

/-- One market's treatment by `_find_opportunities` (lines 573-617):
skip non-positive prices, convert cents to a probability, skip when the
probability leaves `[min_true_prob, max_true_prob]`, take the placeholder
sharp probability equal to the market probability, and size the stake
only behind the `market_prob > 0 and estimated_sharp_prob > market_prob`
guard. -/
def scan_market (cfg : Config) (bankroll now : ℚ) (m : MarketItem) : Option Opportunity :=
  if m.yes_price ≤ 0 then none
  else
    let market_prob := m.yes_price / 100
    if market_prob < cfg.min_true_prob ∨ market_prob > cfg.max_true_prob then none
    else
      let estimated_sharp_prob := market_prob
      some
        { matchup := m.title
          team := m.subtitle
          sport := m.category
          true_prob := estimated_sharp_prob
          market_prob := market_prob
          edge := (estimated_sharp_prob - market_prob) * 100
          kelly_stake :=
            if 0 < market_prob ∧ market_prob < estimated_sharp_prob then
              max 0 (clamped_stake cfg bankroll estimated_sharp_prob market_prob)
            else 0
          kalshi_ticker := some m.ticker
          kalshi_yes_price := m.yes_price
          volume := m.volume
          timestamp := now }

/-- The live scanner `_find_opportunities` over a list of Kalshi markets
(lines 553-619); order-preserving, one candidate per retained market. -/
def find_opportunities (cfg : Config) (bankroll now : ℚ)
    (kalshi_markets : List MarketItem) : List Opportunity :=
  kalshi_markets.filterMap (scan_market cfg bankroll now)

/-- The `Trade` dataclass (lines 24-35).  `result` keeps the source's
string encoding: one of "WIN", "LOSS", "PENDING". -/
structure Trade where
  id : String
  matchup : String
  team : String
  stake : ℚ
  entry_price : ℚ
  true_prob : ℚ
  edge : ℚ
  result : String
  pnl : ℚ
  timestamp : ℚ
deriving Repr, DecidableEq

/-- The engine's mutable stats fields (lines 56-63): bankroll, initial
bankroll, trade ledger, win/loss counters, accumulated P&L. -/
structure EngineState where
  bankroll : ℚ
  initial_bankroll : ℚ
  trades : List Trade
  win_count : Nat
  loss_count : Nat
  total_pnl : ℚ
deriving Repr, DecidableEq

/-- The stats fields of a fresh engine, `__init__` lines 56-62: in demo
mode nothing ever sets the bankroll before trading starts. -/
def init_engine_state : EngineState :=
  { bankroll := 0, initial_bankroll := 0, trades := [], win_count := 0
    loss_count := 0, total_pnl := 0 }

/-- The P&L `_simulate_trade` computes (lines 291-297): the win branch
pays `stake * (1/market_prob - 1)`, the loss branch `-stake`, where
`stake = opp["kelly_stake"]` and `win` is the sampled outcome of
`random.random() < true_prob`. -/
def simulate_trade_pnl (opp : Opportunity) (win : Bool) : ℚ :=
  if win then opp.kelly_stake * (1 / opp.market_prob - 1) else -opp.kelly_stake

/-- The `Trade` record `_simulate_trade` appends (lines 304-315): stake
and pnl are stored rounded to two decimals. -/
def simulated_trade_record (opp : Opportunity) (win : Bool)
    (trade_id : String) (now : ℚ) : Trade :=
  { id := trade_id
    matchup := opp.matchup
    team := opp.team
    stake := round2 opp.kelly_stake
    entry_price := opp.market_prob
    true_prob := opp.true_prob
    edge := opp.edge
    result := if win then "WIN" else "LOSS"
    pnl := round2 (simulate_trade_pnl opp win)
    timestamp := now }

/-- State effect of `_simulate_trade` (lines 281-320): bankroll and
total P&L absorb the unrounded pnl, the matching counter bumps, and the
rounded `Trade` record is appended to the ledger (and published to the
trade queue). -/
def simulate_trade (s : EngineState) (opp : Opportunity) (win : Bool)
    (trade_id : String) (now : ℚ) : EngineState :=
  let pnl := simulate_trade_pnl opp win
  { bankroll := s.bankroll + pnl
    initial_bankroll := s.initial_bankroll
    trades := s.trades ++ [simulated_trade_record opp win trade_id now]
    win_count := if win then s.win_count + 1 else s.win_count
    loss_count := if win then s.loss_count else s.loss_count + 1
    total_pnl := s.total_pnl + pnl }

/-- The random draws one simulation-cycle iteration consumes
(lines 245-289): the chosen matchup, the `uniform(0.35, 0.65)` true-prob
draw, the `uniform(0.02, 0.08)` market offset, and the three
`random.random()` rolls for team pick, trade decision and win outcome. -/
structure SimDraws where
  home : String
  away : String
  tp_raw : ℚ
  mp_delta : ℚ
  team_roll : ℚ
  trade_roll : ℚ
  win_roll : ℚ
deriving Repr, DecidableEq

/-- One iteration of the simulation cycle, `_run_loop` lines 245-279 plus
the `_simulate_trade` call: build the synthetic probabilities, size the
stake, publish the opportunity, and with roll `< 0.4` and (pre-clamp)
`stake > 1` resolve a simulated trade.  Returns the new state, the
published opportunity, and the published trade when one occurred. -/
def run_loop_sim_step (cfg : Config) (s : EngineState) (d : SimDraws)
    (trade_id : String) (now : ℚ) : EngineState × Opportunity × Option Trade :=
  let true_prob := round3 d.tp_raw
  let market_prob := max (1/20) (min (19/20) (true_prob - d.mp_delta))
  let edge := (true_prob - market_prob) * 100
  let stake := clamped_stake cfg s.bankroll true_prob market_prob
  let team := if d.team_roll > 1/2 then d.home else d.away
  let opp : Opportunity :=
    { matchup := d.home ++ " vs " ++ d.away
      team := team
      sport := "sim"
      true_prob := true_prob
      market_prob := market_prob
      edge := edge
      kelly_stake := max 0 stake
      timestamp := now }
  if d.trade_roll < 2/5 ∧ stake > 1 then
    (simulate_trade s opp (d.win_roll < true_prob) trade_id now, opp,
      (simulate_trade s opp (d.win_roll < true_prob) trade_id now).trades.getLast?)
  else
    (s, opp, none)

/-- Running the simulation cycle over a whole list of per-iteration
draws, from the initial state the demo-mode constructor leaves. -/
def run_sim_iterations (cfg : Config) (s : EngineState)
    (draws : List SimDraws) : EngineState :=
  draws.foldl (fun st d => (run_loop_sim_step cfg st d "trade-sim" 0).1) s

/-- A successful pass of `_refresh_kalshi_account` (lines 423-439):
`balance_cents` is the resolved `balance or available or 0` field,
`position_trades` the ledger `_convert_positions_to_trades` builds.  The
bankroll is the rounded dollar balance; the initial bankroll is
(re)captured whenever the stored one is falsy (`if not
self._initial_bankroll`, i.e. equal to 0.0); total P&L is the rounded
difference; the ledger is wholly replaced. -/
def refresh_kalshi_account (s : EngineState) (balance_cents : ℚ)
    (position_trades : List Trade) : EngineState :=
  let bankroll := round2 (balance_cents / 100)
  let initial := if s.initial_bankroll = 0 then bankroll else s.initial_bankroll
  { bankroll := bankroll
    initial_bankroll := initial
    trades := position_trades
    win_count := s.win_count
    loss_count := s.loss_count
    total_pnl := round2 (bankroll - initial) }

/-- The `win_rate` value `get_stats` computes (lines 110-116): pinned to
0 in live mode with a Kalshi client, otherwise
`win_count / (win_count + loss_count) * 100` guarded by
`total_trades > 0`. -/
def get_stats_win_rate (live_with_client : Bool) (s : EngineState) : ℚ :=
  if live_with_client then 0
  else
    let total_trades := s.win_count + s.loss_count
    if total_trades > 0 then (s.win_count : ℚ) / (total_trades : ℚ) * 100 else 0

/-- `_calculate_avg_rr` (lines 132-155): empty ledger gives 0; P&Ls are
split into positive wins and absolute losses (zeros land in neither);
either side empty gives 0; a zero mean loss gives 0; otherwise the ratio
of the means. -/
def calculate_avg_rr (trades : List Trade) : ℚ :=
  if trades = [] then 0
  else
    let wins := (trades.map fun t => t.pnl).filter fun p => p > 0
    let losses := ((trades.map fun t => t.pnl).filter fun p => p < 0).map fun p => |p|
    if wins = [] ∨ losses = [] then 0
    else
      let avg_win := wins.sum / (wins.length : ℚ)
      let avg_loss := losses.sum / (losses.length : ℚ)
      if avg_loss = 0 then 0 else avg_win / avg_loss

/-- Arithmetic mean, as the spec's description of the aggregator uses it. -/
def mean (xs : List ℚ) : ℚ := xs.sum / (xs.length : ℚ)

/-
  Fan-out queues.  `next_log` / `next_opportunity` / `next_trade`
  (lines 163-179) all wrap `SimpleQueue.get(timeout=...)` in
  `try ... except Empty: return None`.  The queue is modelled as the FIFO
  list of currently queued items, oldest first; a `get` that times out on
  an empty queue is the `none` branch, and no other outcome exists, so
  the call never raises to the caller.
-/

/-- One consumer call on one queue: the next queued item and the
remaining queue, or `none` with the queue unchanged when the timeout
expires on an empty queue. -/
def queue_next {α : Type} (q : List α) : Option α × List α :=
  match q with
  | [] => (none, [])
  | x :: xs => (some x, xs)

/-- Reading a queue by `n` successive consumer calls, collecting the
items returned before the first timeout. -/
def drain_calls {α : Type} : Nat → List α → List α
  | 0, _ => []
  | n + 1, q =>
    match queue_next q with
    | (none, _) => []
    | (some x, rest) => x :: drain_calls n rest

/-- `next_log` on the log queue (lines 163-167). -/
def next_log (q : List String) : Option String × List String := queue_next q

/-- `next_opportunity` on the opportunity queue (lines 169-173). -/
def next_opportunity (q : List Opportunity) : Option Opportunity × List Opportunity :=
  queue_next q

/-- `next_trade` on the trade queue (lines 175-179). -/
def next_trade (q : List Trade) : Option Trade × List Trade := queue_next q

/-
  Lifecycle state machine, `start` / `stop` (lines 74-88).
-/

/-- The lifecycle-relevant engine state: the `_running` flag and the
number of live worker threads. -/
structure LifecycleState where
  running : Bool
  workers : Nat
deriving Repr, DecidableEq

/-- Constructor state: not running, no worker (lines 47-48). -/
def lifecycle_init : LifecycleState := ⟨false, 0⟩

/-- `start` (lines 74-81): under the lock, return at once when already
running; otherwise set the flag and spawn the single worker thread. -/
def do_start (s : LifecycleState) : LifecycleState :=
  if s.running then s else ⟨true, s.workers + 1⟩

/-- `stop` (lines 83-88): under the lock clear the flag, then join the
worker (which exits at its next flag check), leaving no live worker; on
an already-stopped engine the flag write is a no-op and the dead/absent
thread is not joined. -/
def do_stop (s : LifecycleState) : LifecycleState :=
  if s.running then ⟨false, 0⟩ else s

/-- A lifecycle call. -/
inductive LifecycleOp
  | start
  | stop
deriving Repr, DecidableEq

/-- Apply one lifecycle call. -/
def lifecycle_step (s : LifecycleState) : LifecycleOp → LifecycleState
  | .start => do_start s
  | .stop => do_stop s

/-- Run a call sequence from the constructor state. -/
def lifecycle_run (ops : List LifecycleOp) : LifecycleState :=
  ops.foldl lifecycle_step lifecycle_init

/-
  Idle-wait shapes of the two worker cycles.  Each wait is the list of
  sleep durations (seconds) executed one after another, with the
  `_running` flag checked immediately before each granule — so after
  `stop()` the worker sleeps at most one further granule of the wait it
  is in before observing the cleared flag.
-/

/-- The connected-venue cycle's inter-scan wait, lines 227-230:
`for _ in range(scan_interval): if not self._running: break;
time.sleep(1)` — `scan_interval` granules of 1 second, flag checked
before each. -/
def live_wait_granules (scan_interval : Nat) : List ℚ :=
  List.replicate scan_interval 1

/-- The simulation cycle's wait, lines 242-243: `while self._running:
time.sleep(2)` — a single granule of 2 seconds per iteration, the flag
checked only at the loop head before it. -/
def sim_wait_granules : List ℚ := [2]

/-- A wait is chunked at 1-second granularity when no single
uninterruptible sleep exceeds one second. -/
def chunked_le_one (granules : List ℚ) : Prop := ∀ g ∈ granules, g ≤ 1

instance (granules : List ℚ) : Decidable (chunked_le_one granules) :=
  inferInstanceAs (Decidable (∀ g ∈ granules, g ≤ 1))

/-- Worst-case extra sleep after `stop()` clears the flag: the flag is
checked before each granule, so at most the largest single granule is
still slept. -/
def stop_latency_bound (granules : List ℚ) : ℚ := granules.foldr max 0

/-
  Spec-side formulas (for refinement comparison only; these follow the
  spec's words, not the source).
-/

/-- Spec-side win rate: wins/(wins+losses)×100, 0 when no resolved
trades. -/
def spec_win_rate (wins losses : Nat) : ℚ :=
  if wins + losses > 0 then (wins : ℚ) / ((wins : ℚ) + (losses : ℚ)) * 100 else 0

/-- Spec-side average reward:risk over a list of trade P&Ls: the mean of
the winning P&Ls over the mean of the absolute losing P&Ls, 0 when either
side is empty or the mean loss is 0. -/
def spec_avg_rr (pnls : List ℚ) : ℚ :=
  let winning := pnls.filter fun p => p > 0
  let losing := (pnls.filter fun p => p < 0).map fun p => |p|
  if winning = [] ∨ losing = [] ∨ mean losing = 0 then 0
  else mean winning / mean losing

/-
  Live-mode evolution of the stats fields: in live mode the worker's
  only mutation of bankroll / ledger / counters is the per-cycle
  `_refresh_kalshi_account` (the simulation branch, and with it
  `_simulate_trade`, is unreachable), so a live engine's stats state is a
  fold of successful syncs over the constructor state.
-/

/-- A live engine's stats state after a sequence of successful account
syncs, each carrying the resolved balance (cents) and the converted
position ledger. -/
def run_live_syncs (syncs : List (ℚ × List Trade)) : EngineState :=
  syncs.foldl (fun st sync => refresh_kalshi_account st sync.1 sync.2) init_engine_state

/-
  Concrete fixtures used by witnesses and counterexamples.
-/

/-- A Kalshi market quoted at 50 cents: implied probability 0.5, inside
the default band. -/
def mkt50 : MarketItem :=
  { ticker := "t50", title := "Team A wins", subtitle := "Team A"
    yes_price := 50, no_price := 50, volume := 7, category := "SPORTS" }

/-- A Kalshi market quoted at 90 cents: implied probability 0.9, outside
the default band [0.15, 0.85]. -/
def mkt90 : MarketItem :=
  { ticker := "t90", title := "Team B wins", subtitle := "Team B"
    yes_price := 90, no_price := 10, volume := 3, category := "SPORTS" }

/-- The opportunity the scanner produces from `mkt50` under the default
configuration with bankroll 0. -/
def opp50 : Opportunity :=
  { matchup := "Team A wins", team := "Team A", sport := "SPORTS"
    true_prob := 1/2, market_prob := 1/2, edge := 0, kelly_stake := 0
    kalshi_ticker := some "t50", kalshi_yes_price := 50, volume := 7
    timestamp := 0 }

/-- A configuration whose absolute dollar cap is negative; every other
key keeps its default. -/
def cfg_neg_cap : Config := { max_dollar_bet := -1 }

/-- An opportunity with market probability 0.5 and stake 10, the spec's
round-trip example. -/
def opp_half : Opportunity :=
  { matchup := "Lakers vs Celtics", team := "Lakers", sport := "sim"
    true_prob := 3/5, market_prob := 1/2, edge := 10, kelly_stake := 10 }

/-- A live-mode stats state whose initial bankroll has been captured at
$5.00. -/
def state_with_initial_5 : EngineState :=
  { bankroll := 5, initial_bankroll := 5, trades := [], win_count := 0
    loss_count := 0, total_pnl := 0 }

/-- One concrete bundle of random draws for a simulation iteration. -/
def draws0 : SimDraws :=
  { home := "Lakers", away := "Celtics", tp_raw := 1/2, mp_delta := 1/20
    team_roll := 3/4, trade_roll := 1/10, win_roll := 1/4 }

/-
  Helper lemmas.
-/

theorem kelly_fraction_eq_zero (tp mp : ℚ) (hmp0 : 0 < mp) (hmp1 : mp ≤ 1)
    (hle : tp ≤ mp) : kelly_fraction tp mp = 0 := by
  unfold kelly_fraction
  apply max_eq_left
  apply div_nonpos_iff.mpr
  right
  constructor
  · have h2 : tp * (1 / mp - 1) - (1 - tp) = tp / mp - 1 := by
      field_simp
      ring
    have h1 : tp / mp ≤ 1 := (div_le_one hmp0).mpr hle
    rw [h2]
    linarith
  · rcases lt_or_eq_of_le hmp1 with h | h
    · have h3 : 1 < 1 / mp := one_lt_one_div hmp0 h
      linarith
    · rw [h]
      norm_num

theorem sim_kelly_stake_eq_zero (cfg : Config) (bankroll tp mp : ℚ)
    (hmp0 : 0 < mp) (hmp1 : mp ≤ 1) (hle : tp ≤ mp) :
    sim_kelly_stake cfg bankroll tp mp = 0 := by
  unfold sim_kelly_stake clamped_stake
  rw [kelly_fraction_eq_zero tp mp hmp0 hmp1 hle, mul_zero, zero_mul]
  apply max_eq_left
  exact le_trans (min_le_left _ _) (min_le_left _ _)

theorem scan_market_stake_eq_zero (cfg : Config) (bankroll now : ℚ)
    (m : MarketItem) (opp : Opportunity)
    (h : scan_market cfg bankroll now m = some opp) : opp.kelly_stake = 0 := by
  simp only [scan_market] at h
  split_ifs at h with h1 h2 h3
  · exact absurd h3.2 (lt_irrefl _)
  · rw [Option.some.injEq] at h
    subst h
    rfl

theorem find_opportunities_stake_eq_zero (cfg : Config) (bankroll now : ℚ)
    (markets : List MarketItem) (opp : Opportunity)
    (h : opp ∈ find_opportunities cfg bankroll now markets) : opp.kelly_stake = 0 := by
  unfold find_opportunities at h
  rw [List.mem_filterMap] at h
  obtain ⟨m, _, hm⟩ := h
  exact scan_market_stake_eq_zero cfg bankroll now m opp hm

theorem sim_kelly_stake_bounds (cfg : Config) (bankroll tp mp : ℚ)
    (hmd : 0 ≤ cfg.max_dollar_bet)
    (hbp : 0 ≤ bankroll * cfg.max_percentage_bet) :
    0 ≤ sim_kelly_stake cfg bankroll tp mp ∧
    sim_kelly_stake cfg bankroll tp mp ≤ cfg.max_dollar_bet ∧
    sim_kelly_stake cfg bankroll tp mp ≤ bankroll * cfg.max_percentage_bet / 100 := by
  have hbp' : 0 ≤ bankroll * cfg.max_percentage_bet / 100 :=
    div_nonneg hbp (by norm_num)
  unfold sim_kelly_stake clamped_stake
  refine ⟨le_max_left _ _, max_le hmd ?_, max_le hbp' (min_le_right _ _)⟩
  exact le_trans (min_le_left _ _) (min_le_right _ _)

theorem run_loop_sim_step_opp (cfg : Config) (s : EngineState) (d : SimDraws)
    (tid : String) (now : ℚ) :
    (run_loop_sim_step cfg s d tid now).2.1.kelly_stake
      = sim_kelly_stake cfg s.bankroll (round3 d.tp_raw)
          (max (1/20) (min (19/20) (round3 d.tp_raw - d.mp_delta))) := by
  simp only [run_loop_sim_step, sim_kelly_stake]
  split <;> rfl

theorem scan_market_band (cfg : Config) (bankroll now : ℚ)
    (m : MarketItem) (opp : Opportunity)
    (h : scan_market cfg bankroll now m = some opp) :
    cfg.min_true_prob ≤ opp.market_prob ∧ opp.market_prob ≤ cfg.max_true_prob := by
  simp only [scan_market] at h
  split_ifs at h with h1 h2 h3
  · exact absurd h3.2 (lt_irrefl _)
  · rw [Option.some.injEq] at h
    subst h
    push_neg at h2
    exact ⟨h2.1, h2.2⟩

theorem isCents_round2 (x : ℚ) : isCents (round2 x) := ⟨round (100 * x), rfl⟩

theorem round2_eq_self (x : ℚ) (h : isCents x) : round2 x = x := by
  obtain ⟨n, rfl⟩ := h
  unfold round2
  have h100 : (100 : ℚ) * ((n : ℚ) / 100) = (n : ℚ) := by
    field_simp
  rw [h100, round_intCast]

theorem isCents_sub (x y : ℚ) (hx : isCents x) (hy : isCents y) : isCents (x - y) := by
  obtain ⟨n, rfl⟩ := hx
  obtain ⟨m, rfl⟩ := hy
  refine ⟨n - m, ?_⟩
  push_cast
  ring

/-- The invariant relating the running flag to the number of live
workers: one while running, none while stopped. -/
def lifecycle_inv (s : LifecycleState) : Prop :=
  s.workers = if s.running then 1 else 0

theorem lifecycle_inv_step (s : LifecycleState) (op : LifecycleOp)
    (h : lifecycle_inv s) : lifecycle_inv (lifecycle_step s op) := by
  cases op <;>
    simp only [lifecycle_inv, lifecycle_step, do_start, do_stop] at * <;>
    by_cases hr : s.running <;>
    simp_all

theorem lifecycle_foldl_inv (ops : List LifecycleOp) (s : LifecycleState)
    (h : lifecycle_inv s) : lifecycle_inv (ops.foldl lifecycle_step s) := by
  induction ops generalizing s with
  | nil => exact h
  | cons op rest ih => exact ih _ (lifecycle_inv_step s op h)

theorem lifecycle_run_inv (ops : List LifecycleOp) :
    lifecycle_inv (lifecycle_run ops) :=
  lifecycle_foldl_inv ops lifecycle_init (by simp [lifecycle_inv, lifecycle_init])

theorem queue_next_eq {α : Type} (q : List α) :
    queue_next q = (q.head?, q.tail) := by
  cases q <;> rfl

theorem drain_calls_all {α : Type} (q : List α) :
    drain_calls q.length q = q := by
  induction q with
  | nil => rfl
  | cons x xs ih =>
    simp only [List.length_cons, drain_calls, queue_next]
    rw [ih]

theorem refresh_preserves_counts (s : EngineState) (c : ℚ) (tr : List Trade) :
    (refresh_kalshi_account s c tr).win_count = s.win_count ∧
    (refresh_kalshi_account s c tr).loss_count = s.loss_count := ⟨rfl, rfl⟩

theorem run_live_syncs_counts (syncs : List (ℚ × List Trade)) :
    (run_live_syncs syncs).win_count = 0 ∧ (run_live_syncs syncs).loss_count = 0 := by
  unfold run_live_syncs
  suffices h : ∀ s : EngineState,
      (syncs.foldl (fun st sync => refresh_kalshi_account st sync.1 sync.2) s).win_count
          = s.win_count ∧
      (syncs.foldl (fun st sync => refresh_kalshi_account st sync.1 sync.2) s).loss_count
          = s.loss_count by
    exact h init_engine_state
  induction syncs with
  | nil => exact fun s => ⟨rfl, rfl⟩
  | cons sync rest ih =>
    intro s
    simpa using ih (refresh_kalshi_account s sync.1 sync.2)

theorem clamped_stake_nonpos_of_zero_bankroll (cfg : Config) (tp mp : ℚ) :
    clamped_stake cfg 0 tp mp ≤ 0 := by
  unfold clamped_stake
  have h : (0 : ℚ) * cfg.max_percentage_bet / 100 = 0 := by norm_num
  rw [h]
  exact min_le_right _ _

theorem run_loop_sim_step_at_zero (cfg : Config) (s : EngineState) (d : SimDraws)
    (tid : String) (now : ℚ) (hs : s.bankroll = 0) :
    (run_loop_sim_step cfg s d tid now).1 = s ∧
    (run_loop_sim_step cfg s d tid now).2.1.kelly_stake = 0 ∧
    (run_loop_sim_step cfg s d tid now).2.2 = none := by
  have hst : clamped_stake cfg s.bankroll (round3 d.tp_raw)
      (max (1/20) (min (19/20) (round3 d.tp_raw - d.mp_delta))) ≤ 0 := by
    rw [hs]
    exact clamped_stake_nonpos_of_zero_bankroll cfg _ _
  have hcond : ¬(d.trade_roll < 2/5 ∧
      clamped_stake cfg s.bankroll (round3 d.tp_raw)
        (max (1/20) (min (19/20) (round3 d.tp_raw - d.mp_delta))) > 1) := by
    rintro ⟨-, hgt⟩
    linarith
  simp only [run_loop_sim_step]
  rw [if_neg hcond]
  exact ⟨rfl, max_eq_left hst, rfl⟩

theorem run_sim_iterations_at_init (cfg : Config) (draws : List SimDraws) :
    run_sim_iterations cfg init_engine_state draws = init_engine_state := by
  unfold run_sim_iterations
  induction draws with
  | nil => rfl
  | cons d ds ih =>
    rw [List.foldl_cons,
      (run_loop_sim_step_at_zero cfg init_engine_state d "trade-sim" 0 rfl).1]
    exact ih

theorem find_opportunities_mkt50 (cfg : Config)
    (hband : cfg.min_true_prob = 3/20 ∧ cfg.max_true_prob = 17/20)
    (bankroll now : ℚ) :
    find_opportunities cfg bankroll now [mkt50]
      = [{ matchup := "Team A wins", team := "Team A", sport := "SPORTS"
           true_prob := 1/2, market_prob := 1/2, edge := 0, kelly_stake := 0
           kalshi_ticker := some "t50", kalshi_yes_price := 50, volume := 7
           timestamp := now }] := by
  obtain ⟨h1, h2⟩ := hband
  norm_num [find_opportunities, List.filterMap_cons, List.filterMap_nil,
    scan_market, mkt50, h1, h2]

theorem opp50_mem_default :
    opp50 ∈ find_opportunities {} 100 0 [mkt50] := by
  rw [find_opportunities_mkt50 {} ⟨rfl, rfl⟩ 100 0]
  exact List.mem_singleton.mpr rfl

/-
  Claim theorems.
-/

/-- C1 (counterexample): the three stake bounds do not hold for every
bankroll and configuration.  With `max_dollar_bet = -1` (all other keys
default) and bankroll 100, the live scanner emits exactly one
opportunity for a 50-cent market, and its stake (0) violates
`stake ≤ max_dollar_bet`. -/
theorem C1_counterexample :
    find_opportunities cfg_neg_cap 100 0 [mkt50] = [opp50] ∧
    ¬ opp50.kelly_stake ≤ cfg_neg_cap.max_dollar_bet := by
  constructor
  · rw [find_opportunities_mkt50 cfg_neg_cap ⟨rfl, rfl⟩ 100 0]
    rfl
  · norm_num [opp50, cfg_neg_cap]

/-- C1 (amended): for every configuration with a nonnegative absolute
dollar cap and every bankroll whose product with the percentage cap is
nonnegative (in particular every nonnegative bankroll under the
defaults), every opportunity emitted by the engine — the simulation
cycle's synthetic opportunities and the live scanner's output — has
`0 ≤ stake`, `stake ≤ max_dollar_bet`, and
`stake ≤ bankroll * max_percentage_bet / 100` simultaneously. -/
theorem C1_stake_caps (cfg : Config) (hmd : 0 ≤ cfg.max_dollar_bet) :
    (∀ (s : EngineState) (d : SimDraws) (tid : String) (now : ℚ),
        0 ≤ s.bankroll * cfg.max_percentage_bet →
        0 ≤ (run_loop_sim_step cfg s d tid now).2.1.kelly_stake ∧
        (run_loop_sim_step cfg s d tid now).2.1.kelly_stake ≤ cfg.max_dollar_bet ∧
        (run_loop_sim_step cfg s d tid now).2.1.kelly_stake
          ≤ s.bankroll * cfg.max_percentage_bet / 100) ∧
    (∀ (bankroll now : ℚ) (markets : List MarketItem),
        0 ≤ bankroll * cfg.max_percentage_bet →
        ∀ opp ∈ find_opportunities cfg bankroll now markets,
        0 ≤ opp.kelly_stake ∧ opp.kelly_stake ≤ cfg.max_dollar_bet ∧
        opp.kelly_stake ≤ bankroll * cfg.max_percentage_bet / 100) := by
  constructor
  · intro s d tid now hbp
    rw [run_loop_sim_step_opp]
    exact sim_kelly_stake_bounds cfg s.bankroll _ _ hmd hbp
  · intro bankroll now markets hbp opp hmem
    rw [find_opportunities_stake_eq_zero cfg bankroll now markets opp hmem]
    exact ⟨le_refl 0, hmd, div_nonneg hbp (by norm_num)⟩

/-- C1 (witness): under the default configuration with bankroll 100, the
scanner's opportunity for a 50-cent market satisfies all three bounds. -/
theorem C1_witness :
    0 ≤ opp50.kelly_stake ∧ opp50.kelly_stake ≤ ({} : Config).max_dollar_bet ∧
    opp50.kelly_stake ≤ 100 * ({} : Config).max_percentage_bet / 100 :=
  (C1_stake_caps {} (by norm_num)).2 100 0 [mkt50] (by norm_num) opp50 opp50_mem_default

/-- C2: for every pair of probabilities with `true_prob ≤ market_prob`
(`market_prob` a nondegenerate probability, as both call sites
guarantee), the simulation cycle's published stake is exactly 0; and the
live scanner's sizing guard yields stake 0 for every emitted
opportunity, since its placeholder sharp probability never exceeds the
market probability.  No negative stake and no buy-side position without
a positive edge. -/
theorem C2_no_stake_without_edge (cfg : Config) (bankroll now tp mp : ℚ)
    (markets : List MarketItem)
    (hmp0 : 0 < mp) (hmp1 : mp < 1) (hle : tp ≤ mp) :
    sim_kelly_stake cfg bankroll tp mp = 0 ∧
    ∀ opp ∈ find_opportunities cfg bankroll now markets, opp.kelly_stake = 0 :=
  ⟨sim_kelly_stake_eq_zero cfg bankroll tp mp hmp0 (le_of_lt hmp1) hle,
   fun opp h => find_opportunities_stake_eq_zero cfg bankroll now markets opp h⟩

/-- C2 (witness): with the default configuration, bankroll 100,
true probability 0.4 and market probability 0.5, the simulated stake is
0, and the scanner's opportunity for the 50-cent market has stake 0. -/
theorem C2_witness :
    sim_kelly_stake {} 100 (2/5) (1/2) = 0 ∧ opp50.kelly_stake = 0 := by
  have h := C2_no_stake_without_edge {} 100 0 (2/5) (1/2) [mkt50]
    (by norm_num) (by norm_num) (by norm_num)
  exact ⟨h.1, h.2 opp50 opp50_mem_default⟩

/-- C3 (counterexample): it is not the case that both worker cycles
chunk their idle waits into granules of at most 1 second — the
simulation cycle sleeps a single uninterruptible 2-second granule
(`time.sleep(2)`, line 243). -/
theorem C3_counterexample :
    ¬ (chunked_le_one (live_wait_granules 30) ∧ chunked_le_one sim_wait_granules) := by
  decide

/-- C3 (amended): only the connected-venue cycle chunks its idle wait
into 1-second granules with the running flag checked before each, so its
post-stop latency is bounded by 1 second; the simulation cycle checks
the flag only at the loop head and then sleeps a single 2-second
granule, so its post-stop latency is bounded by 2 seconds, not 1. -/
theorem C3_amended_wait_granularity (scan_interval : Nat) :
    chunked_le_one (live_wait_granules scan_interval) ∧
    stop_latency_bound (live_wait_granules scan_interval) ≤ 1 ∧
    stop_latency_bound sim_wait_granules = 2 := by
  refine ⟨?_, ?_, by decide⟩
  · unfold chunked_le_one live_wait_granules
    intro g hg
    rw [List.eq_of_mem_replicate hg]
  · unfold stop_latency_bound live_wait_granules
    induction scan_interval with
    | zero => simp
    | succ k ih =>
      rw [List.replicate_succ, List.foldr_cons]
      exact max_le le_rfl ih

/-- C4 (counterexample): the initial bankroll is not captured once and
for all at the first successful sync.  A first sync reporting balance 0
leaves `initial_bankroll` falsy, so a second sync reporting 500 cents
overwrites it (from 0 to 5). -/
theorem C4_counterexample :
    Ne (refresh_kalshi_account (refresh_kalshi_account init_engine_state 0 []) 500 []).initial_bankroll
      (refresh_kalshi_account init_engine_state 0 []).initial_bankroll := by
  have e0 : round2 (0 / 100) = 0 := by
    rw [show (0 : ℚ) / 100 = 0 by norm_num]
    exact round2_eq_self 0 ⟨0, by norm_num⟩
  have e5 : round2 (500 / 100) = 5 := by
    rw [show (500 : ℚ) / 100 = 5 by norm_num]
    exact round2_eq_self 5 ⟨500, by norm_num⟩
  simp only [refresh_kalshi_account, init_engine_state, e0, e5]
  norm_num

/-- C4 (amended): the initial bankroll is captured at the first
successful sync that reports a nonzero balance — while it is zero each
sync re-captures it — and once nonzero it is never overwritten by a
later sync; after every successful sync, total P&L equals bankroll minus
initial bankroll (exactly, both being cent-valued). -/
theorem C4_amended_initial_capture (s : EngineState) (c : ℚ) (tr : List Trade)
    (hc : isCents s.initial_bankroll) :
    (s.initial_bankroll ≠ 0 →
        (refresh_kalshi_account s c tr).initial_bankroll = s.initial_bankroll) ∧
    (refresh_kalshi_account s c tr).total_pnl
      = (refresh_kalshi_account s c tr).bankroll
          - (refresh_kalshi_account s c tr).initial_bankroll := by
  constructor
  · intro h
    simp only [refresh_kalshi_account]
    rw [if_neg h]
  · simp only [refresh_kalshi_account]
    apply round2_eq_self
    refine isCents_sub _ _ (isCents_round2 _) ?_
    by_cases h0 : s.initial_bankroll = 0
    · rw [if_pos h0]
      exact isCents_round2 _
    · rw [if_neg h0]
      exact hc

/-- C4 (witness): from a state whose initial bankroll is $5.00, a sync
reporting 700 cents preserves the initial bankroll and leaves total P&L
equal to bankroll minus initial bankroll. -/
theorem C4_witness :
    (refresh_kalshi_account state_with_initial_5 700 []).initial_bankroll
        = state_with_initial_5.initial_bankroll ∧
    (refresh_kalshi_account state_with_initial_5 700 []).total_pnl
      = (refresh_kalshi_account state_with_initial_5 700 []).bankroll
          - (refresh_kalshi_account state_with_initial_5 700 []).initial_bankroll := by
  have h := C4_amended_initial_capture state_with_initial_5 700 []
    ⟨500, by norm_num [state_with_initial_5]⟩
  exact ⟨h.1 (by norm_num [state_with_initial_5]), h.2⟩

/-- C5: the stats view computes `win_rate = wins/(wins+losses)*100` when
`wins + losses > 0` and 0 when there are no resolved trades (in live
mode, where the rate is pinned to 0, the counters are identically 0, so
the formula still holds on every reachable live state), and
`avg_rr = mean(winning P&Ls)/mean(|losing P&Ls|)`, returning 0 whenever
the ledger is empty, whenever there are no winning or no losing trades,
or the mean loss is 0 — all guards explicit, so no division error can
occur. -/
theorem C5_stats_formulas (s : EngineState) (trades : List Trade)
    (syncs : List (ℚ × List Trade)) :
    get_stats_win_rate false s = spec_win_rate s.win_count s.loss_count ∧
    calculate_avg_rr trades = spec_avg_rr (trades.map fun t => t.pnl) ∧
    get_stats_win_rate true (run_live_syncs syncs)
      = spec_win_rate (run_live_syncs syncs).win_count
          (run_live_syncs syncs).loss_count := by
  refine ⟨?_, ?_, ?_⟩
  · simp only [get_stats_win_rate, spec_win_rate, Bool.false_eq_true, if_false]
    split_ifs with h
    · push_cast
      ring
    · rfl
  · by_cases htr : trades = []
    · subst htr
      rfl
    · simp only [calculate_avg_rr, spec_avg_rr, mean]
      rw [if_neg htr]
      by_cases h1 : (trades.map fun t => t.pnl).filter (fun p => p > 0) = [] ∨
          ((trades.map fun t => t.pnl).filter fun p => p < 0).map (fun p => |p|) = []
      · rw [if_pos h1, if_pos (by tauto)]
      · rw [if_neg h1]
        by_cases h2 :
            (((trades.map fun t => t.pnl).filter fun p => p < 0).map fun p => |p|).sum
              / ((((trades.map fun t => t.pnl).filter fun p => p < 0).map
                  fun p => |p|).length : ℚ) = 0
        · rw [if_pos h2, if_pos (by tauto)]
        · rw [if_neg h2, if_neg (by tauto)]
  · obtain ⟨hw, hl⟩ := run_live_syncs_counts syncs
    simp [get_stats_win_rate, spec_win_rate, hw, hl]

/-- C6: calling `start()` while the engine is already running is a no-op
that leaves exactly one live worker thread, and calling `stop()` on an
already-stopped engine is a no-op that returns cleanly — after every
prior call sequence from the constructor state. -/
theorem C6_lifecycle_idempotent (ops : List LifecycleOp) :
    ((lifecycle_run ops).running = true →
        do_start (lifecycle_run ops) = lifecycle_run ops ∧
        (lifecycle_run ops).workers = 1) ∧
    ((lifecycle_run ops).running = false →
        do_stop (lifecycle_run ops) = lifecycle_run ops) := by
  have hinv := lifecycle_run_inv ops
  unfold lifecycle_inv at hinv
  constructor
  · intro hr
    rw [hr] at hinv
    simp only [if_true] at hinv
    exact ⟨by simp [do_start, hr], by simpa using hinv⟩
  · intro hr
    simp [do_stop, hr]

/-- C6 (witness): after a single `start()`, a second `start()` is a
no-op with exactly one worker; after `start(); stop()`, a further
`stop()` is a no-op. -/
theorem C6_witness :
    (do_start (lifecycle_run [LifecycleOp.start]) = lifecycle_run [LifecycleOp.start] ∧
      (lifecycle_run [LifecycleOp.start]).workers = 1) ∧
    do_stop (lifecycle_run [LifecycleOp.start, LifecycleOp.stop])
      = lifecycle_run [LifecycleOp.start, LifecycleOp.stop] :=
  ⟨(C6_lifecycle_idempotent [LifecycleOp.start]).1 (by decide),
   (C6_lifecycle_idempotent [LifecycleOp.start, LifecycleOp.stop]).2 (by decide)⟩

/-- C7: for every simulated trade, a win's P&L is
`stake * (1/market_prob - 1)` and a loss's P&L is `-stake`; that P&L is
exactly what the bankroll and total P&L absorb, and the ledger record
stores it rounded to cents.  In particular, with `market_prob = 0.5` and
`stake = 10` a win yields +10 and a loss yields -10, both in the
bankroll and in the recorded trade. -/
theorem C7_simulated_pnl (s : EngineState) (opp : Opportunity) (win : Bool)
    (tid : String) (now : ℚ) :
    simulate_trade_pnl opp true = opp.kelly_stake * (1 / opp.market_prob - 1) ∧
    simulate_trade_pnl opp false = -opp.kelly_stake ∧
    (simulate_trade s opp win tid now).bankroll
      = s.bankroll + simulate_trade_pnl opp win ∧
    (simulate_trade s opp win tid now).total_pnl
      = s.total_pnl + simulate_trade_pnl opp win ∧
    (simulate_trade s opp win tid now).trades
      = s.trades ++ [simulated_trade_record opp win tid now] ∧
    (simulated_trade_record opp win tid now).pnl
      = round2 (simulate_trade_pnl opp win) ∧
    (simulate_trade s opp_half true tid now).bankroll = s.bankroll + 10 ∧
    (simulate_trade s opp_half false tid now).bankroll = s.bankroll - 10 ∧
    (simulated_trade_record opp_half true tid now).pnl = 10 ∧
    (simulated_trade_record opp_half false tid now).pnl = -10 := by
  refine ⟨rfl, rfl, rfl, rfl, rfl, rfl, ?_, ?_, ?_, ?_⟩
  · show s.bankroll + simulate_trade_pnl opp_half true = s.bankroll + 10
    have h : simulate_trade_pnl opp_half true = 10 := by
      norm_num [simulate_trade_pnl, opp_half]
    rw [h]
  · show s.bankroll + simulate_trade_pnl opp_half false = s.bankroll - 10
    have h : simulate_trade_pnl opp_half false = -10 := by
      norm_num [simulate_trade_pnl, opp_half]
    rw [h]
    ring
  · show round2 (simulate_trade_pnl opp_half true) = 10
    have h : simulate_trade_pnl opp_half true = 10 := by
      norm_num [simulate_trade_pnl, opp_half]
    rw [h, round2_eq_self 10 ⟨1000, by norm_num⟩]
  · show round2 (simulate_trade_pnl opp_half false) = -10
    have h : simulate_trade_pnl opp_half false = -10 := by
      norm_num [simulate_trade_pnl, opp_half]
    rw [h, round2_eq_self (-10) ⟨-1000, by norm_num⟩]

/-- C8: the live scanner emits no opportunity for a market whose implied
probability `yes_price/100` lies outside
`[min_true_prob, max_true_prob]` — every emitted opportunity's market
probability lies in the band — and with the default band [0.15, 0.85] a
market with implied probability 0.9 produces zero opportunities. -/
theorem C8_probability_band (cfg : Config) (bankroll now : ℚ)
    (markets : List MarketItem) :
    (∀ opp ∈ find_opportunities cfg bankroll now markets,
        cfg.min_true_prob ≤ opp.market_prob ∧ opp.market_prob ≤ cfg.max_true_prob) ∧
    find_opportunities {} bankroll now [mkt90] = [] := by
  constructor
  · intro opp hmem
    unfold find_opportunities at hmem
    rw [List.mem_filterMap] at hmem
    obtain ⟨m, _, hm⟩ := hmem
    exact scan_market_band cfg bankroll now m opp hm
  · norm_num [find_opportunities, scan_market, mkt90]

/-- C8 (witness): under the default configuration the scanner's
opportunity for a 50-cent market has market probability inside the
default band. -/
theorem C8_witness :
    ({} : Config).min_true_prob ≤ opp50.market_prob ∧
    opp50.market_prob ≤ ({} : Config).max_true_prob :=
  (C8_probability_band {} 100 0 [mkt50]).1 opp50 opp50_mem_default

/-- C9: each of the three consumer calls `next_log`,
`next_opportunity`, `next_trade` returns either the next queued item
(FIFO: the head of the queue) or the explicit `none` signal when the
timeout expires on an empty queue — it is a total function, so the
timeout case never raises — and reading a queue of n published items
with n consumer calls returns all of them in FIFO order with no loss.
(Real-time blocking is abstracted: a timed-out `get` on an empty queue
is modelled as returning `none`.) -/
theorem C9_consumer_queue_calls (logs : List String) (opps : List Opportunity)
    (trades : List Trade) :
    next_log logs = (logs.head?, logs.tail) ∧
    next_opportunity opps = (opps.head?, opps.tail) ∧
    next_trade trades = (trades.head?, trades.tail) ∧
    drain_calls logs.length logs = logs ∧
    drain_calls opps.length opps = opps ∧
    drain_calls trades.length trades = trades :=
  ⟨queue_next_eq logs, queue_next_eq opps, queue_next_eq trades,
   drain_calls_all logs, drain_calls_all opps, drain_calls_all trades⟩

/-- C10: in demo mode the bankroll starts at 0 and no simulation
iteration changes the state: from any zero-bankroll state each iteration
leaves the state unchanged, publishes an opportunity whose stake is 0,
and publishes no trade (the `stake > 1` gate can never pass), so after
any sequence of random draws the ledger is still empty and the state is
still the initial one. -/
theorem C10_demo_mode_inert (cfg : Config) (draws : List SimDraws)
    (s : EngineState) (d : SimDraws) (tid : String) (now : ℚ)
    (hs : s.bankroll = 0) :
    init_engine_state.bankroll = 0 ∧
    run_sim_iterations cfg init_engine_state draws = init_engine_state ∧
    (run_loop_sim_step cfg s d tid now).1 = s ∧
    (run_loop_sim_step cfg s d tid now).2.1.kelly_stake = 0 ∧
    (run_loop_sim_step cfg s d tid now).2.2 = none := by
  obtain ⟨h1, h2, h3⟩ := run_loop_sim_step_at_zero cfg s d tid now hs
  exact ⟨rfl, run_sim_iterations_at_init cfg draws, h1, h2, h3⟩

/-- C10 (witness): with the default configuration, one concrete draw
bundle from the fresh demo state leaves the state unchanged, emits a
stake-0 opportunity, and emits no trade. -/
theorem C10_witness :
    init_engine_state.bankroll = 0 ∧
    run_sim_iterations {} init_engine_state [draws0] = init_engine_state ∧
    (run_loop_sim_step {} init_engine_state draws0 "t" 0).1 = init_engine_state ∧
    (run_loop_sim_step {} init_engine_state draws0 "t" 0).2.1.kelly_stake = 0 ∧
    (run_loop_sim_step {} init_engine_state draws0 "t" 0).2.2 = none :=
  C10_demo_mode_inert {} [draws0] init_engine_state draws0 "t" 0 rfl

end Predictipulse
